import Mathlib

/-!
Verification of the streaming conversational-turn orchestrator
(`stream_chat_message_objects` in `process_message.py`).

The orchestrator is a Python generator interacting with external
collaborators (conversation store, answer engine, tool registry, file
store).  We embed it shallowly: the collaborators become oracle fields of
an `Env` structure (each fallible call is `Except`-valued so that failures
at any call site can be injected), database staging/commit/rollback become
explicit state passing on `DbState`, the generator's `yield`s become an
accumulated packet list, and Python exceptions become `Except ExKind`.
A Python local variable that may be referenced before assignment (the
`llm` local read by the error classifier) is threaded as an `Option`.
-/

namespace ChatOrch

/-! ## Basic data model -/

inductive MessageType
  | system
  | user
  | assistant
deriving DecidableEq

structure Prompt where
  id : Nat
deriving DecidableEq

structure PromptOverride where
  name : String
deriving DecidableEq

/-- A record of one tool invocation, attached to the assistant message
(`ToolCall` in the source). -/
structure ToolCallRec where
  toolId : Nat
  toolName : String
  toolArgs : String
  toolResult : String
deriving DecidableEq

/-- A chat message row (`ChatMessage` ORM model, seen through the fields the
orchestrator reads and writes).  `prompt` mirrors the ORM relationship that
the source tests for truthiness at `if not final_msg.prompt`. -/
structure Message where
  id : Nat
  parentId : Option Nat := none
  messageType : MessageType
  promptId : Option Nat := none
  prompt : Option Nat := none
  text : String := ""
  tokenCount : Nat := 0
  files : List Nat := []
  alternateAssistantId : Option Nat := none
  rephrasedQuery : Option String := none
  errorText : Option String := none
  referenceDocs : Option (List Nat) := none
  citations : Option (List (Nat × Nat)) := none
  toolCalls : List ToolCallRec := []
deriving DecidableEq

/-- A persona's tool reference row (`db_tool_model` in the source). -/
structure DbToolModel where
  id : Nat
  inCodeToolId : Option Nat := none
  openapiSchema : Option (List String) := none
deriving DecidableEq

structure Persona where
  id : Nat
  prompts : List Prompt := []
  numChunks : Option Nat := none
  llmRelevanceFilter : Bool := false
  tools : List DbToolModel := []
deriving DecidableEq

structure ChatSession where
  id : Nat
  persona : Persona
  promptOverrideField : Option PromptOverride := none
  llmOverrideField : Option String := none
deriving DecidableEq

/-- The turn's LLM configuration (`llm.config` in the source, flattened:
the source only ever reads `llm.config.*`). -/
structure LLMConfig where
  modelProvider : String
  modelName : String := ""
  apiKey : Option String := none
  apiBase : Option String := none
  apiVersion : Option String := none
deriving DecidableEq

structure LLMProvider where
  provider : String
  apiKey : Option String := none
  defaultModelName : String := ""
  apiBase : Option String := none
  apiVersion : Option String := none
deriving DecidableEq

structure RetrievalOptions where
  dedupeDocs : Bool := false
deriving DecidableEq

/-- `CreateChatMessageRequest`, restricted to the fields the orchestrator
reads. -/
structure Req where
  chatSessionId : Option Nat := none
  message : String := ""
  parentMessageId : Option Nat := none
  searchDocIds : Option (List Nat) := none
  retrievalOptions : Option RetrievalOptions := none
  alternateAssistantId : Option Nat := none
  promptId : Option Nat := none
  promptOverride : Option PromptOverride := none
  llmOverride : Option String := none
  fileDescriptors : List Nat := []
  chunksAbove : Nat := 0
  chunksBelow : Nat := 0
  fullDoc : Bool := false
  queryOverride : Option String := none
deriving DecidableEq

/-! ## Exceptions -/

/-- Python exceptions that flow through the orchestrator, tagged by raise
site.  `unboundLocal` models an `UnboundLocalError` raised while a previous
exception (the chained context, Python's `__context__`) was being handled. -/
inductive ExKind
  | configError (msg : String)
  | genAIDisabled
  | chainIntegrity
  | invalidRegenState
  | noPromptFound
  | indexError
  | missingCredential (msg : String)
  | keyError (key : String)
  | externalFailure (msg : String)
  | unboundLocal (ctx : ExKind)
deriving DecidableEq

/-- `str(e)` for each modelled exception; the message strings the source
raises verbatim. -/
def exMsg : ExKind → String
  | .configError m => m
  | .genAIDisabled => "Generative AI is disabled"
  | .chainIntegrity =>
      "The new message was not on the mainline. Be sure to update the chat pointers before calling this."
  | .invalidRegenState =>
      "The last message was not a user message. Cannot call `stream_chat_message_objects` with `is_regenerate=True` when the last message is not a user message."
  | .noPromptFound => "No Prompt found"
  | .indexError => "list index out of range"
  | .missingCredential m => m
  | .keyError k => k
  | .externalFailure m => m
  | .unboundLocal _ => "local variable referenced before assignment"

/-! ## Database session state -/

/-- The SQLAlchemy session, seen as staged (uncommitted) rows plus committed
rows, with counters for `commit()` and `rollback()` calls. -/
structure DbState where
  committed : List Message := []
  staged : List Message := []
  commits : Nat := 0
  rollbacks : Nat := 0
deriving DecidableEq

def stageMsg (db : DbState) (m : Message) : DbState :=
  { db with staged := db.staged ++ [m] }

def commitDb (db : DbState) : DbState :=
  { db with
    committed := db.committed ++ db.staged
    staged := []
    commits := db.commits + 1 }

def rollbackDb (db : DbState) : DbState :=
  { db with staged := [], rollbacks := db.rollbacks + 1 }

/-- `attach_files_to_chat_message(..., commit=False)`: update the staged
row's file list in place. -/
def attachFilesDb (db : DbState) (mid : Nat) (fs : List Nat) : DbState :=
  { db with
    staged := db.staged.map fun m => if m.id = mid then { m with files := fs } else m }

/-! ## Pruning and prompt configuration -/

/-- Modelled from the spec: `DocumentPruningConfig` is an external pydantic
model; per the spec's pruning policy, manual mode sets only the
manual-selection flag ("no budget cap"), all other fields defaulting to
none/false/zero. -/
structure DocumentPruningConfig where
  isManuallySelectedDocs : Bool := false
  maxChunks : Option Nat := none
  maxWindowPercentage : Option Rat := none
  useSections : Bool := false
  toolNumTokens : Nat := 0
  usingToolMessage : Bool := false
deriving DecidableEq

/-- Modelled from the spec: `PromptConfig.from_model(prompt, prompt_override)`
is external; it records which prompt the answering configuration was built
from and whether an override was applied to it. -/
structure PromptConfig where
  promptUsedId : Nat
  overrideApplied : Option PromptOverride := none
deriving DecidableEq

/-! ## Packets and answer-engine events -/

/-- The `ChatPacket` union.  `qaDocs` is `QADocsResponse` (its
`fromInternet` flag reflects the differing `QueryFlow`/`SearchType` fields
the internal and internet handlers put in it), `relevance` is
`LLMRelevanceFilterResponse`, `messageDetail` is `ChatMessageDetail`,
`toolCallFinal` is the `ToolCallFinalResult` the source casts and yields. -/
inductive ChatPacket
  | qaDocs (fromInternet : Bool) (rephrased : Option String) (docIds : List Nat)
  | relevance (relevantChunkIndices : List Nat)
  | imageDisplay (fileIds : List Nat)
  | customToolResp (name : String) (result : String)
  | answerPiece (piece : String)
  | citation (c : Nat × Nat)
  | toolCallFinal (name : String)
  | messageDetail (messageId : Nat)
  | streamingError (error : String)
deriving DecidableEq

/-- One event of `answer.processed_streamed_output`, classified the way the
source's event loop classifies it (by `ToolResponse.id` tag or packet type).
`failure` injects an exception raised while producing the stream. -/
inductive AnswerEvent
  | searchSummary (rephrased : Option String) (docIds : List Nat)
  | sectionRelevance (relevantDocIds : List Nat)
  | imageGeneration (urls : List String)
  | internetSearch (docIds : List Nat)
  | customTool (name : String) (result : String)
  | answerPiece (piece : String)
  | citation (c : Nat × Nat)
  | toolCallFinal (name : String) (args : String) (result : String)
  | failure (e : ExKind)
deriving DecidableEq

/-! ## Tools -/

inductive ToolClassName
  | searchToolClass
  | imageGenClass
  | internetClass
  | otherClass
deriving DecidableEq

inductive EvalType
  | basic
  | skip
deriving DecidableEq

/-- The credential fields an `ImageGenerationTool` is constructed with. -/
structure ImageGenCfg where
  apiKey : String
  apiBase : Option String := none
  apiVersion : Option String := none
deriving DecidableEq

/-- A configured per-turn tool instance.  The search variant records the
parameters bound at construction (the shared mutable pruning config object
is not copied into it, mirroring the by-reference sharing in the source). -/
inductive ConfiguredTool
  | search (evalType : EvalType) (chunksAbove chunksBelow : Nat) (fullDoc : Bool)
  | imageGen (cfg : ImageGenCfg)
  | internet (apiKey : String)
  | custom (opName : String)
deriving DecidableEq

/-- Modelled from the spec: the runtime names of tool instances (used as
keys of `tool_name_to_tool_id`); custom tools are named by their schema
operation. -/
def toolNameOf : ConfiguredTool → String
  | .search _ _ _ _ => "run_search"
  | .imageGen _ => "run_image_generation"
  | .internet _ => "run_internet_search"
  | .custom op => op

/-! ## String helpers (Python `in` and truthiness) -/

def charsStart : List Char → List Char → Bool
  | [], _ => true
  | _ :: _, [] => false
  | a :: as, b :: bs => a == b && charsStart as bs

def charsHave (pat : List Char) : List Char → Bool
  | [] => pat.isEmpty
  | c :: rest => charsStart pat (c :: rest) || charsHave pat rest

/-- Python `pat in hay` on strings. -/
def strHas (hay pat : String) : Bool :=
  charsHave pat.toList hay.toList

/-- Python truthiness of an optional string (None and "" are falsy). -/
def optStrTruthy : Option String → Bool
  | none => false
  | some s => !(s == "")

/-- Python truthiness of a persona ORM object: always truthy (the source's
`if not persona` branch is dead for a resolved persona object). -/
def personaTruthy (_ : Persona) : Bool := true

/-! ## The external collaborators, as oracles

Modelled from the spec: the conversation store, LLM factory, tokenizer,
document index, file store, tool registry and answer engine are external
collaborators ("specified only at their interface").  Each call the
orchestrator makes is an `Except`-valued oracle so a failure can be
injected at any call site; the answer engine is its finished event list. -/

structure Env where
  chatSession : Except ExKind ChatSession
  personaById : Nat → Except ExKind Persona := fun _ => .error (.externalFailure "no persona")
  getLlms : Except ExKind (LLMConfig × LLMConfig)
  infra : Except ExKind Unit := .ok ()
  tokenize : String → Except ExKind Nat := fun s => .ok s.length
  rootMessage : Except ExKind Message
  getChatMessage : Nat → Except ExKind Message := fun _ => .error (.externalFailure "no message")
  newMessageId : Nat := 1000
  chainAfterInsert : Message → Except ExKind (Message × List Message)
  chainExisting : Except ExKind (Message × List Message) := .error (.externalFailure "no chain")
  loadFiles : Except ExKind (List Nat) := .ok []
  docIdentifiers : List Nat → Except ExKind (List Nat) := fun l => .ok l
  inferenceSections : List Nat → Except ExKind (List Nat) := fun l => .ok l
  getDbSearchDoc : Nat → Option Nat := fun d => some d
  builtinToolClass : Nat → Except ExKind ToolClassName := fun _ => .ok .otherClass
  providers : List LLMProvider := []
  bingApiKey : Option String := none
  toolTokens : Nat := 0
  explicitToolCalling : Bool := false
  events : List AnswerEvent := []
  saveFilesFromUrls : List String → Except ExKind (List Nat) := fun l => .ok (l.map (fun _ => 0))
  answerText : String := ""
  answerCitations : List (Nat × Nat) := []
  translateCitations : List (Nat × Nat) → List Nat → Except ExKind (List (Nat × Nat)) :=
    fun cs _ => .ok cs
  translateDetail : Message → Except ExKind Nat := fun m => .ok m.id
  newAssistantId : Nat := 1001

/-! ## Setup phase (source lines 132-476) -/

/-- The local bindings the generation loop and the persister read, as they
stand after the setup code has run. -/
structure SetupOut where
  chatSessionId : Nat
  persona : Persona
  promptId : Option Nat
  llm : LLMConfig
  fastLlm : LLMConfig
  userMessage : Option Message
  finalMsg : Message
  historyMsgs : List Message
  latestQueryFiles : List Nat
  selectedDbSearchDocs : Option (List Nat)
  pruning : DocumentPruningConfig
  promptConfig : PromptConfig
  tools : List (Nat × ConfiguredTool)
  dedupeFlag : Bool
  alternateAssistantId : Option Nat
  citationAllDocsUseful : Bool
deriving DecidableEq

/-- Python truthiness of `reference_doc_ids` (`if reference_doc_ids:`):
a present, non-empty id list. -/
def refIdsTruthy (req : Req) : Bool :=
  match req.searchDocIds with
  | some (_ :: _) => true
  | _ => false

/-- Stable insertion into an id-sorted prompt list (equal ids keep their
original relative order, as Python's `sorted` guarantees). -/
def insertByPromptId (p : Prompt) : List Prompt → List Prompt
  | [] => [p]
  | q :: qs => if p.id ≤ q.id then p :: q :: qs else q :: insertByPromptId p qs

/-- `sorted(persona.prompts, key=lambda x: x.id)`. -/
def sortByPromptId : List Prompt → List Prompt
  | [] => []
  | p :: ps => insertByPromptId p (sortByPromptId ps)

/-- `sorted(persona.prompts, key=lambda x: x.id)[-1].id` — the id of the
last element of the id-sorted prompt list. -/
def highestPromptId (ps : List Prompt) : Nat :=
  (((sortByPromptId ps).getLast?).map Prompt.id).getD 0

/-- Source lines 159-161: the prompt id attached to the stored messages —
the caller's `prompt_id` when given, else the highest-id persona prompt
when the persona has prompts. -/
def selectPromptId (req : Req) (persona : Persona) : Option Nat :=
  match req.promptId with
  | some p => some p
  | none => if persona.prompts.isEmpty then none else some (highestPromptId persona.prompts)

/-- Source lines 211-221: `create_new_chat_message(..., MessageType.USER,
files=None, commit=False)` — the provisional user message row. -/
def mkUserMessage (env : Env) (req : Req) (parent_message : Message)
    (prompt_id : Option Nat) (tokenCount : Nat) : Message :=
  { id := env.newMessageId
    parentId := some parent_message.id
    messageType := .user
    promptId := prompt_id
    prompt := prompt_id
    text := req.message
    tokenCount := tokenCount }

/-- Source lines 275-316: choose manual or budget pruning mode and the
manually selected db search docs. Returns
(pruning config, selected db search docs, selected sections). -/
def buildPruningAndSelection (env : Env) (req : Req) (persona : Persona)
    (default_num_chunks : Nat) (max_document_percentage : Rat) :
    Except ExKind (DocumentPruningConfig × Option (List Nat) × Option (List Nat)) :=
  if refIdsTruthy req then
    let refIds := req.searchDocIds.getD []
    match env.docIdentifiers refIds with
    | .error e => .error e
    | .ok identifierTuples =>
      match env.inferenceSections identifierTuples with
      | .error e => .error e
      | .ok selectedSections =>
        .ok ({ isManuallySelectedDocs := true },
          some (refIds.filterMap env.getDbSearchDoc),
          some selectedSections)
  else
    .ok ({ maxChunks := some (persona.numChunks.getD default_num_chunks),
           maxWindowPercentage := some max_document_percentage,
           useSections := decide (req.chunksAbove > 0) || decide (req.chunksBelow > 0) },
      none, none)

/-- Source lines 375-414: resolve the image-generation credential, priority
order: the turn's own LLM config when it has an api key and its provider is
"openai", else the first configured "openai" provider; missing-credential
error when neither yields a key. -/
def resolveImageGenCfg (llm : LLMConfig) (providers : List LLMProvider) :
    Except ExKind ImageGenCfg :=
  if optStrTruthy llm.apiKey && (llm.modelProvider == "openai") then
    .ok { apiKey := llm.apiKey.getD "", apiBase := llm.apiBase, apiVersion := llm.apiVersion }
  else
    match (providers.filter (fun p => p.provider == "openai")).head? with
    | none => .error (.missingCredential "Image generation tool requires an OpenAI API key")
    | some p =>
      if optStrTruthy p.apiKey then
        .ok { apiKey := p.apiKey.getD "", apiBase := p.apiBase, apiVersion := p.apiVersion }
      else
        .error (.missingCredential "Image generation tool requires an OpenAI API key")

/-- Source lines 349-434: the tool configuration loop over
`persona.tools`, producing `(tool id, tool)` pairs in iteration order. -/
def configureTools (env : Env) (req : Req) (persona : Persona) (llm : LLMConfig)
    (latestQueryFiles : List Nat) : List DbToolModel →
    Except ExKind (List (Nat × ConfiguredTool))
  | [] => .ok []
  | t :: ts =>
    match t.inCodeToolId with
    | some _ =>
      (match env.builtinToolClass t.id with
      | .error e => .error e
      | .ok cls =>
        let here : Except ExKind (List (Nat × ConfiguredTool)) :=
          match cls with
          | .searchToolClass =>
            if latestQueryFiles.isEmpty then
              .ok [(t.id, .search
                (if persona.llmRelevanceFilter then .basic else .skip)
                req.chunksAbove req.chunksBelow req.fullDoc)]
            else .ok []
          | .imageGenClass =>
            match resolveImageGenCfg llm env.providers with
            | .error e => .error e
            | .ok cfg => .ok [(t.id, .imageGen cfg)]
          | .internetClass =>
            if optStrTruthy env.bingApiKey then
              .ok [(t.id, .internet (env.bingApiKey.getD ""))]
            else
              .error (.missingCredential
                "Internet search tool requires a Bing API key, please contact your project admin to get it added!")
          | .otherClass => .ok []
        match here with
        | .error e => .error e
        | .ok added =>
          match configureTools env req persona llm latestQueryFiles ts with
          | .error e => .error e
          | .ok rest => .ok (added ++ rest))
    | none =>
      match t.openapiSchema with
      | some schema =>
        match configureTools env req persona llm latestQueryFiles ts with
        | .error e => .error e
        | .ok rest => .ok (schema.map (fun op => (t.id, ConfiguredTool.custom op)) ++ rest)
      | none => configureTools env req persona llm latestQueryFiles ts

/-- Source lines 250-476: the setup code after the message chain has been
resolved (shared by the new-message and the regeneration branches). -/
def setupRest (env : Env) (req : Req) (default_num_chunks : Nat)
    (max_document_percentage : Rat) (chat_session : ChatSession) (persona : Persona)
    (prompt_id : Option Nat) (llm fast_llm : LLMConfig) (user_message : Option Message)
    (final_msg : Message) (history_msgs : List Message) (db : DbState) :
    Except ExKind SetupOut × Option LLMConfig × DbState :=
  match env.loadFiles with
  | .error e => (.error e, some llm, db)
  | .ok files =>
    let latest_query_files := files.filter (fun f => req.fileDescriptors.contains f)
    let db :=
      match user_message with
      | some um => attachFilesDb db um.id latest_query_files
      | none => db
    match buildPruningAndSelection env req persona default_num_chunks max_document_percentage with
    | .error e => (.error e, some llm, db)
    | .ok (document_pruning_config, selected_db_search_docs, _selected_sections) =>
      match final_msg.prompt with
      | none => (.error .noPromptFound, some llm, db)
      | some finalMsgPromptId =>
        let promptConfigRes : Except ExKind PromptConfig :=
          if personaTruthy persona = false then
            .ok { promptUsedId := finalMsgPromptId,
                  overrideApplied :=
                    match req.promptOverride with
                    | some o => some o
                    | none => chat_session.promptOverrideField }
          else
            match persona.prompts with
            | [] => .error .indexError
            | p :: _ => .ok { promptUsedId := p.id, overrideApplied := none }
        match promptConfigRes with
        | .error e => (.error e, some llm, db)
        | .ok prompt_config =>
          match configureTools env req persona llm latest_query_files persona.tools with
          | .error e => (.error e, some llm, db)
          | .ok tools =>
            (.ok { chatSessionId := chat_session.id
                   persona := persona
                   promptId := prompt_id
                   llm := llm
                   fastLlm := fast_llm
                   userMessage := user_message
                   finalMsg := final_msg
                   historyMsgs := history_msgs
                   latestQueryFiles := latest_query_files
                   selectedDbSearchDocs := selected_db_search_docs
                   pruning := { document_pruning_config with
                                toolNumTokens := env.toolTokens
                                usingToolMessage := env.explicitToolCalling }
                   promptConfig := prompt_config
                   tools := tools
                   dedupeFlag := (req.retrievalOptions.map RetrievalOptions.dedupeDocs).getD false
                   alternateAssistantId := req.alternateAssistantId
                   citationAllDocsUseful := selected_db_search_docs.isSome },
             some llm, db)

/-- Source lines 132-476: everything up to the event loop, with the Python
local `llm` threaded as the `Option LLMConfig` component (it is `none`
until `get_llms_for_persona` returns, which is what the error classifier
later dereferences). -/
def setup (env : Env) (req : Req) (default_num_chunks : Nat)
    (max_document_percentage : Rat) (use_existing_user_message : Bool) (db0 : DbState) :
    Except ExKind SetupOut × Option LLMConfig × DbState :=
  match env.chatSession with
  | .error e => (.error e, none, db0)
  | .ok chat_session =>
    match (match req.alternateAssistantId with
           | some aid => env.personaById aid
           | none => .ok chat_session.persona) with
    | .error e => (.error e, none, db0)
    | .ok persona =>
      let prompt_id : Option Nat := selectPromptId req persona
      if req.searchDocIds = none ∧ req.retrievalOptions = none then
        (.error (.configError "Must specify a set of documents for chat or specify search options"),
         none, db0)
      else
        match env.getLlms with
        | .error .genAIDisabled =>
          (.error (.configError "LLM is disabled. Can't use chat flow without LLM."), none, db0)
        | .error e => (.error e, none, db0)
        | .ok (llm, fast_llm) =>
          match env.infra with
          | .error e => (.error e, some llm, db0)
          | .ok _ =>
            match env.rootMessage with
            | .error e => (.error e, some llm, db0)
            | .ok root_message =>
              match (match req.parentMessageId with
                     | some pid => env.getChatMessage pid
                     | none => .ok root_message) with
              | .error e => (.error e, some llm, db0)
              | .ok parent_message =>
                if use_existing_user_message = false then
                  match env.tokenize req.message with
                  | .error e => (.error e, some llm, db0)
                  | .ok tokenCount =>
                    let user_message : Message :=
                      mkUserMessage env req parent_message prompt_id tokenCount
                    let db1 := stageMsg db0 user_message
                    match env.chainAfterInsert user_message with
                    | .error e => (.error e, some llm, db1)
                    | .ok (final_msg, history_msgs) =>
                      if final_msg.id ≠ user_message.id then
                        (.error .chainIntegrity, some llm, rollbackDb db1)
                      else
                        setupRest env req default_num_chunks max_document_percentage
                          chat_session persona prompt_id llm fast_llm (some user_message)
                          final_msg history_msgs db1
                else
                  match env.chainExisting with
                  | .error e => (.error e, some llm, db0)
                  | .ok (final_msg, history_msgs) =>
                    if final_msg.messageType ≠ .user then
                      (.error .invalidRegenState, some llm, db0)
                    else
                      setupRest env req default_num_chunks max_document_percentage
                        chat_session persona prompt_id llm fast_llm none
                        final_msg history_msgs db0

/-! ## Generation loop (source lines 478-557) -/

/-- `qa_docs_response`, restricted to the fields later read. -/
structure QaInfo where
  rephrased : Option String := none
  docs : List Nat := []
  fromInternet : Bool := false
deriving DecidableEq

/-- The loop-carried locals of the event loop. -/
structure LoopState where
  referenceDbSearchDocs : Option (List Nat) := none
  qaDocs : Option QaInfo := none
  aiMessageFiles : Option (List Nat) := none
  droppedIndices : Option (List Nat) := none
  toolResult : Option (String × String × String) := none
deriving DecidableEq

/-- Modelled from the spec: `dedupe_documents` drops later duplicates and
records the (original) indices of the dropped entries. -/
def dedupeDocsAux (seen : List Nat) (i : Nat) : List Nat → List Nat × List Nat
  | [] => ([], [])
  | d :: ds =>
    if seen.contains d then
      let (kept, dropped) := dedupeDocsAux seen (i + 1) ds
      (kept, i :: dropped)
    else
      let (kept, dropped) := dedupeDocsAux (d :: seen) (i + 1) ds
      (d :: kept, dropped)

def dedupeDocs (l : List Nat) : List Nat × List Nat :=
  dedupeDocsAux [] 0 l

/-- Modelled from the spec: `_handle_search_tool_response_summary` — when
manually selected docs exist they are used verbatim; otherwise the
retrieved docs are stored, deduplicated when the caller's dedupe flag is
set, with the dropped indices recorded. -/
def handleSearchSummary (selected : Option (List Nat)) (dedupe : Bool)
    (rephrased : Option String) (docIds : List Nat) :
    QaInfo × List Nat × List Nat :=
  match selected with
  | some sel => ({ rephrased := rephrased, docs := sel }, sel, [])
  | none =>
    if dedupe then
      let (kept, dropped) := dedupeDocs docIds
      ({ rephrased := rephrased, docs := kept }, kept, dropped)
    else
      ({ rephrased := rephrased, docs := docIds }, docIds, [])

/-- Modelled from the spec: `_handle_internet_search_tool_response_summary`
creates db search docs for the web results and returns them as the new
reference documents. -/
def handleInternetSummary (docIds : List Nat) : QaInfo × List Nat :=
  ({ docs := docIds, fromInternet := true }, docIds)

/-- Modelled from the spec: `relevant_documents_to_indices` — positions in
the emitted doc list of the documents the LLM judged relevant. -/
def relevantDocumentsToIndices (relevant : List Nat) (docs : List Nat) : List Nat :=
  (List.range docs.length).filter (fun i => (docs.getD i 0) ∈ relevant)

/-- Modelled from the spec: `drop_llm_indices` — indices dropped by
deduplication are excluded and the remaining indices renumbered. -/
def dropLlmIndices (llmIndices : List Nat) (droppedIndices : List Nat) : List Nat :=
  (llmIndices.filter (fun i => !(droppedIndices.contains i))).map
    (fun i => i - (droppedIndices.filter (fun j => j < i)).length)

/-- One iteration of the event loop (source lines 483-557): returns the
updated loop locals and the packets yielded for this event, or the
exception it raised. -/
def stepEvent (env : Env) (s : SetupOut) (st : LoopState) :
    AnswerEvent → Except ExKind (LoopState × List ChatPacket)
  | .searchSummary rephrased docIds =>
    let (qa, refs, dropped) :=
      handleSearchSummary s.selectedDbSearchDocs s.dedupeFlag rephrased docIds
    .ok ({ st with
           referenceDbSearchDocs := some refs
           qaDocs := some qa
           droppedIndices := some dropped },
      [.qaDocs false qa.rephrased qa.docs])
  | .sectionRelevance relevantDocIds =>
    match st.referenceDbSearchDocs with
    | none => .ok (st, [])
    | some refs =>
      let llmIndices := relevantDocumentsToIndices relevantDocIds refs
      let llmIndices :=
        match st.droppedIndices with
        | some (d :: ds) => dropLlmIndices llmIndices (d :: ds)
        | _ => llmIndices
      .ok (st, [.relevance llmIndices])
  | .imageGeneration urls =>
    match env.saveFilesFromUrls urls with
    | .error e => .error e
    | .ok fileIds =>
      .ok ({ st with aiMessageFiles := some fileIds }, [.imageDisplay fileIds])
  | .internetSearch docIds =>
    let (qa, refs) := handleInternetSummary docIds
    .ok ({ st with referenceDbSearchDocs := some refs, qaDocs := some qa },
      [.qaDocs true qa.rephrased qa.docs])
  | .customTool name result => .ok (st, [.customToolResp name result])
  | .answerPiece p => .ok (st, [.answerPiece p])
  | .citation c => .ok (st, [.citation c])
  | .toolCallFinal name args result =>
    .ok ({ st with toolResult := some (name, args, result) }, [.toolCallFinal name])
  | .failure e => .error e

/-- The event loop: packets yielded so far (emitted even if a later event
raises) together with the final loop locals or the raised exception. -/
def genLoop (env : Env) (s : SetupOut) :
    List AnswerEvent → LoopState → List ChatPacket × Except ExKind LoopState
  | [], st => ([], .ok st)
  | ev :: evs, st =>
    match stepEvent env s st ev with
    | .error e => ([], .error e)
    | .ok (st', ps) =>
      let (rest, r) := genLoop env s evs st'
      (ps ++ rest, r)

/-! ## Error classifier (source lines 559-583) -/

/-- Source lines 559-579: map a generation-phase exception to the
user-facing error message.  The classifier reads the Python local `llm`;
when the exception predates the `llm` assignment that read raises an
`UnboundLocalError`, returned here as `.error (.unboundLocal e)`. -/
def classifyError (llmOpt : Option LLMConfig) (e : ExKind) : Except ExKind String :=
  let error_msg : String := exMsg e
  if strHas error_msg "Illegal header value b'Bearer  '" then
    match llmOpt with
    | none => .error (.unboundLocal e)
    | some llm =>
      .ok ("Authentication error: Invalid or empty API key provided for '"
        ++ llm.modelProvider ++ "'. Please check your API key configuration.")
  else if strHas error_msg
      "Invalid leading whitespace, reserved character(s), or return character(s) in header value" then
    match llmOpt with
    | none => .error (.unboundLocal e)
    | some llm =>
      .ok ("Authentication error: Invalid API key format for '" ++ llm.modelProvider
        ++ "'. Please ensure your API key does not contain leading/trailing whitespace or invalid characters.")
  else
    match llmOpt with
    | none => .error (.unboundLocal e)
    | some llm =>
      match llm.apiKey with
      | some key =>
        if !(key == "") && strHas error_msg.toLower key.toLower then
          .ok ("LLM failed to respond. Invalid API key error from '" ++ llm.modelProvider ++ "'.")
        else
          .ok "An unexpected error occurred while processing your request. Please try again later."
      | none =>
        .ok "An unexpected error occurred while processing your request. Please try again later."

/-! ## Persistence phase (source lines 585-632) -/

/-- How the whole turn ended: `success` (detail packet yielded),
`failedTurn e` (generation raised `e`, converted to a `StreamingError`
packet), `failedPersist e` (persistence raised `e`, converted to a
`StreamingError` packet), or `raised e` (the exception `e` escaped the
generator uncaught). -/
inductive Outcome
  | success
  | failedTurn (cause : ExKind)
  | failedPersist (cause : ExKind)
  | raised (e : ExKind)
deriving DecidableEq

/-- Python dict semantics of `tool_name_to_tool_id` (later insertions win):
the id paired with the last tool of the given name. -/
def lookupToolId (tools : List (Nat × ConfiguredTool)) (name : String) : Option Nat :=
  ((tools.filter (fun p => toolNameOf p.2 == name)).getLast?).map Prod.fst

/-- Source lines 585-632: build the assistant message, commit, and yield
the final detail packet; on any exception yield
`StreamingError("Failed to parse LLM output")` instead (no rollback). -/
def persist (env : Env) (s : SetupOut) (st : LoopState) (db : DbState) :
    List ChatPacket × DbState × Outcome :=
  let failPackets : List ChatPacket := [.streamingError "Failed to parse LLM output"]
  let citRes : Except ExKind (Option (List (Nat × Nat))) :=
    match st.referenceDbSearchDocs with
    | some (r :: rs) =>
      match env.translateCitations env.answerCitations (r :: rs) with
      | .error e => .error e
      | .ok cs => .ok (some cs)
    | _ => .ok none
  match citRes with
  | .error e => (failPackets, db, .failedPersist e)
  | .ok dbCitations =>
    match env.tokenize env.answerText with
    | .error e => (failPackets, db, .failedPersist e)
    | .ok tokenCount =>
      let toolCallsRes : Except ExKind (List ToolCallRec) :=
        match st.toolResult with
        | none => .ok []
        | some (name, args, result) =>
          match lookupToolId s.tools name with
          | none => .error (.keyError name)
          | some tid =>
            .ok [{ toolId := tid, toolName := name, toolArgs := args, toolResult := result }]
      match toolCallsRes with
      | .error e => (failPackets, db, .failedPersist e)
      | .ok toolCalls =>
        let gen_ai_response_message : Message :=
          { id := env.newAssistantId
            parentId := some s.finalMsg.id
            messageType := .assistant
            promptId := s.promptId
            prompt := s.promptId
            text := env.answerText
            tokenCount := tokenCount
            files := (st.aiMessageFiles).getD []
            alternateAssistantId := s.alternateAssistantId
            rephrasedQuery :=
              match st.qaDocs with
              | some qa => qa.rephrased
              | none => none
            referenceDocs := st.referenceDbSearchDocs
            citations := dbCitations
            toolCalls := toolCalls }
        let db1 := commitDb (stageMsg db gen_ai_response_message)
        match env.translateDetail gen_ai_response_message with
        | .error e => (failPackets, db1, .failedPersist e)
        | .ok mid => ([.messageDetail mid], db1, .success)

/-! ## The orchestrator -/

/-- The full result of one turn: the packet stream the caller saw, the
final database state, and how the generator ended. -/
structure RunResult where
  packets : List ChatPacket
  db : DbState
  outcome : Outcome
deriving DecidableEq

/-- `stream_chat_message_objects`: setup and generation inside the big
`try` (exceptions classified, one `StreamingError` yielded and the session
rolled back — unless the classifier itself raises, in which case the
exception escapes), then the persistence phase under its own handler. -/
def stream_chat_message_objects (env : Env) (req : Req) (default_num_chunks : Nat)
    (max_document_percentage : Rat) (use_existing_user_message : Bool)
    (db0 : DbState) : RunResult :=
  match setup env req default_num_chunks max_document_percentage use_existing_user_message db0 with
  | (.error e, llmOpt, db1) =>
    match classifyError llmOpt e with
    | .ok msg => { packets := [.streamingError msg], db := rollbackDb db1, outcome := .failedTurn e }
    | .error e2 => { packets := [], db := db1, outcome := .raised e2 }
  | (.ok s, llmOpt, db1) =>
    match genLoop env s env.events {} with
    | (ps, .error e) =>
      match classifyError llmOpt e with
      | .ok msg =>
        { packets := ps ++ [.streamingError msg], db := rollbackDb db1, outcome := .failedTurn e }
      | .error e2 => { packets := ps, db := db1, outcome := .raised e2 }
    | (ps, .ok st) =>
      let (pps, db2, oc) := persist env s st db1
      { packets := ps ++ pps, db := db2, outcome := oc }

/-! ## Auxiliary discriminators used in theorem statements -/

/-- Number of user-type messages in a list of rows. -/
def countUser (l : List Message) : Nat :=
  (l.filter (fun m => m.messageType == .user)).length

/-- Did the generator end by raising a configuration error directly? -/
def isRaisedConfigError : Outcome → Bool
  | .raised (.configError _) => true
  | _ => false

/-- A `DocsFound` packet produced by the internal search summary (as opposed
to the internet-search one). -/
def isInternalQaDocs : ChatPacket → Bool
  | .qaDocs false _ _ => true
  | _ => false

def isQaDocsPacket : ChatPacket → Bool
  | .qaDocs _ _ _ => true
  | _ => false

def isRelevancePacket : ChatPacket → Bool
  | .relevance _ => true
  | _ => false

/-- Stream-order check: scanning left to right, every relevance packet must
be preceded by some `DocsFound` packet. -/
def relevanceAfterDocs : Bool → List ChatPacket → Bool
  | _, [] => true
  | _, .qaDocs _ _ _ :: ps => relevanceAfterDocs true ps
  | seen, .relevance _ :: ps => seen && relevanceAfterDocs seen ps
  | seen, _ :: ps => relevanceAfterDocs seen ps

/-! ## Concrete fixtures -/

def llmMain : LLMConfig := { modelProvider := "openai" }

def personaMain : Persona := { id := 7, prompts := [⟨1⟩, ⟨2⟩] }

def sessionMain : ChatSession := { id := 3, persona := personaMain }

def rootMsgMain : Message := { id := 0, messageType := .system }

/-- A well-behaved collaborator environment: session and LLM resolve, the
chain resolver returns the freshly inserted message as the leaf, the answer
engine produces no tool events. -/
def envMain : Env :=
  { chatSession := .ok sessionMain
    getLlms := .ok (llmMain, llmMain)
    rootMessage := .ok rootMsgMain
    chainAfterInsert := fun m => .ok (m, [])
    answerText := "ANSWER" }

def reqMain : Req := { message := "hi", retrievalOptions := some {} }

/-- A request that supplies neither reference documents nor retrieval
options. -/
def reqNoDocsNoRetrieval : Req := { message := "hi" }

/-- Regeneration environment: the existing mainline leaf is a user
message. -/
def envRegen : Env :=
  { envMain with chainExisting := .ok ({ id := 50, messageType := .user, prompt := some 2 }, []) }

/-- Regeneration environment whose existing mainline leaf is an assistant
message. -/
def envRegenBad : Env :=
  { envMain with chainExisting := .ok ({ id := 51, messageType := .assistant, prompt := some 2 }, []) }

/-- Environment in which the chain re-resolution after the insert returns a
different leaf (a concurrent branch). -/
def envChainBad : Env :=
  { envMain with chainAfterInsert := fun _ => .ok ({ id := 51, messageType := .assistant, prompt := some 2 }, []) }

/-- Environment whose answer engine runs an internet search and then a
relevance event, and no internal search. -/
def envNet : Env :=
  { envMain with events := [.internetSearch [5, 9], .sectionRelevance [9]] }

/-- Environment in which generation succeeds but the final
message-detail translation raises. -/
def envPersistFail : Env :=
  { envMain with translateDetail := fun _ => .error (.externalFailure "boom") }

/-- Request pinning `prompt_id` to 1 while the persona's highest prompt id
is 2. -/
def reqPromptOne : Req := { message := "hi", retrievalOptions := some {}, promptId := some 1 }

/-! ## C1 -/

/-- C1: the claim says every exception raised during the generation phase
(from session setup through the event loop) is emitted as exactly one
`StreamingError` packet, last in the stream, with the provisional writes
rolled back, and never escapes raw.  The code violates this: for any
exception raised before the `llm` local is bound — here, the configuration
error of source line 163 — the handler at line 576 reads the unbound `llm`
local, so an `UnboundLocalError` escapes raw, with no packet and no
rollback. -/
theorem C1_generation_exception_escapes_raw :
    stream_chat_message_objects envMain reqNoDocsNoRetrieval 10 1 false {} =
      { packets := []
        db := {}
        outcome := .raised (.unboundLocal (.configError
          "Must specify a set of documents for chat or specify search options")) } := by
  decide

/-! ## C2 -/

/-- C2 counterexample: a regeneration turn (`use_existing_user_message =
true`) completes without raising yet commits zero new user messages, so
"every turn that completes without raising commits exactly one new user
message" is false as stated. -/
theorem C2_counterexample :
    (stream_chat_message_objects envRegen reqMain 10 1 true {}).outcome = .success ∧
    countUser (stream_chat_message_objects envRegen reqMain 10 1 true {}).db.committed = 0 ∧
    (stream_chat_message_objects envRegen reqMain 10 1 true {}).db.commits = 1 := by
  decide

/-! ## C4 -/

/-- C4 counterexample: generation succeeds, the persistence phase raises,
and the turn emits `StreamingError("Failed to parse LLM output")` — not the
claimed "failed to finalize response" — and performs no rollback. -/
theorem C4_counterexample :
    (stream_chat_message_objects envPersistFail reqMain 10 1 false {}).packets =
      [.streamingError "Failed to parse LLM output"] ∧
    (stream_chat_message_objects envPersistFail reqMain 10 1 false {}).db.rollbacks = 0 ∧
    (stream_chat_message_objects envPersistFail reqMain 10 1 false {}).outcome =
      .failedPersist (.externalFailure "boom") ∧
    ("Failed to parse LLM output" == "failed to finalize response") = false := by
  decide

/-! ## C6 -/

/-- C6 counterexample: with only an internet-search event before the
relevance event, the stream contains a relevance packet although no
document-list packet from an internal search summary was ever emitted —
internet-search results do participate in relevance filtering. -/
theorem C6_counterexample :
    (stream_chat_message_objects envNet reqMain 10 1 false {}).packets =
      [.qaDocs true none [5, 9], .relevance [1], .messageDetail 1001] ∧
    ((stream_chat_message_objects envNet reqMain 10 1 false {}).packets.countP
      isInternalQaDocs) = 0 ∧
    ((stream_chat_message_objects envNet reqMain 10 1 false {}).packets.countP
      isRelevancePacket) = 1 := by
  decide

/-! ## C8 -/

/-- C8 counterexample: with both the reference document ids and the
retrieval options absent the turn does fail before any packet, but the
exception that escapes is the handler's `UnboundLocalError` (chaining the
configuration error), not the configuration error itself. -/
theorem C8_counterexample :
    (stream_chat_message_objects envMain reqNoDocsNoRetrieval 10 1 false {}).packets = [] ∧
    (stream_chat_message_objects envMain reqNoDocsNoRetrieval 10 1 false {}).outcome =
      .raised (.unboundLocal (.configError
        "Must specify a set of documents for chat or specify search options")) ∧
    isRaisedConfigError
      (stream_chat_message_objects envMain reqNoDocsNoRetrieval 10 1 false {}).outcome = false := by
  decide

/-! ## C10 -/

/-- C10 counterexample: when the caller supplies `prompt_id = 1` while the
persona's highest prompt id is 2, the stored messages carry prompt id 1 —
the attached prompt id is not always the persona prompt with the highest
id. -/
theorem C10_counterexample :
    (stream_chat_message_objects envMain reqPromptOne 10 1 false {}).db.committed.map
      Message.promptId = [some 1, some 1] ∧
    highestPromptId personaMain.prompts = 2 ∧
    ((some 1 : Option Nat) == some 2) = false := by
  decide

/-! ## Helper lemmas about the phases -/

lemma attachFilesDb_staged_shape (db : DbState) (mid : Nat) (fs : List Nat) :
    (attachFilesDb db mid fs).staged.map (fun m => (m.id, m.messageType, m.promptId)) =
      db.staged.map (fun m => (m.id, m.messageType, m.promptId)) := by
  unfold attachFilesDb
  simp only [List.map_map]
  refine List.map_congr_left ?_
  intro m _
  by_cases hm : m.id = mid <;> simp [hm]

/-- The classifier never raises once the `llm` local is bound. -/
lemma classifyError_some_ok (llm : LLMConfig) (e : ExKind) :
    ∃ m, classifyError (some llm) e = .ok m := by
  unfold classifyError
  dsimp only
  by_cases h1 : strHas (exMsg e) "Illegal header value b'Bearer  '" = true
  · rw [if_pos h1]; exact ⟨_, rfl⟩
  · rw [if_neg h1]
    by_cases h2 : strHas (exMsg e)
        "Invalid leading whitespace, reserved character(s), or return character(s) in header value" = true
    · rw [if_pos h2]; exact ⟨_, rfl⟩
    · rw [if_neg h2]
      cases hk : llm.apiKey with
      | none => exact ⟨_, rfl⟩
      | some key =>
        dsimp only
        by_cases h3 : (!(key == "") && strHas (exMsg e).toLower key.toLower) = true
        · rw [if_pos h3]; exact ⟨_, rfl⟩
        · rw [if_neg h3]; exact ⟨_, rfl⟩

/-- Projections of a successful `setupRest`. -/
lemma setupRest_ok_proj {env : Env} {req : Req} {dnc : Nat} {mdp : Rat}
    {cs : ChatSession} {persona : Persona} {pid : Option Nat} {llm fllm : LLMConfig}
    {umOpt : Option Message} {fm : Message} {hist : List Message} {db : DbState}
    {s : SetupOut} {lo : Option LLMConfig} {db1 : DbState}
    (h : setupRest env req dnc mdp cs persona pid llm fllm umOpt fm hist db =
      (.ok s, lo, db1)) :
    s.finalMsg = fm ∧ s.userMessage = umOpt ∧ s.persona = persona ∧ s.promptId = pid ∧
    s.promptConfig.overrideApplied = none ∧
    (∃ p rest, persona.prompts = p :: rest ∧ s.promptConfig.promptUsedId = p.id) ∧
    db1.committed = db.committed ∧ db1.commits = db.commits ∧ db1.rollbacks = db.rollbacks ∧
    db1.staged.map (fun m => (m.id, m.messageType, m.promptId)) =
      db.staged.map (fun m => (m.id, m.messageType, m.promptId)) := by
  unfold setupRest at h
  rcases hlf : env.loadFiles with e | files
  · rw [hlf] at h; simp at h
  rw [hlf] at h
  rcases hbp : buildPruningAndSelection env req persona dnc mdp with e | ⟨pc, sel, ss⟩
  · rw [hbp] at h; simp at h
  rw [hbp] at h
  rcases hfp : fm.prompt with _ | fpid
  · rw [hfp] at h; simp at h
  rw [hfp] at h
  simp only [personaTruthy] at h
  rcases hpp : persona.prompts with _ | ⟨p, rest⟩
  · rw [hpp] at h; simp at h
  rw [hpp] at h
  rcases hct : configureTools env req persona llm
      (files.filter fun f => req.fileDescriptors.contains f) persona.tools with e | tools
  · cases umOpt <;> · rw [hct] at h; simp at h
  cases umOpt with
  | none =>
    rw [hct, if_neg (show ¬(true = false) by decide)] at h
    dsimp only at h
    simp only [Prod.mk.injEq, Except.ok.injEq] at h
    obtain ⟨hs, -, hdb⟩ := h
    subst hs hdb
    exact ⟨rfl, rfl, rfl, rfl, rfl, ⟨p, rest, rfl, rfl⟩, rfl, rfl, rfl, rfl⟩
  | some um =>
    rw [hct, if_neg (show ¬(true = false) by decide)] at h
    dsimp only at h
    simp only [Prod.mk.injEq, Except.ok.injEq] at h
    obtain ⟨hs, -, hdb⟩ := h
    subst hs hdb
    exact ⟨rfl, rfl, rfl, rfl, rfl, ⟨p, rest, rfl, rfl⟩, rfl, rfl, rfl,
      attachFilesDb_staged_shape ..⟩

/-- Full characterization of a successful `setup`: the prompt id and prompt
config selections, preservation of the committed rows, and the shape of the
staged rows in both the new-message and the regeneration branches. -/
lemma setup_ok_shape {env : Env} {req : Req} {dnc : Nat} {mdp : Rat} {useEx : Bool}
    {db0 : DbState} {s : SetupOut} {lo : Option LLMConfig} {db1 : DbState}
    (h : setup env req dnc mdp useEx db0 = (.ok s, lo, db1)) :
    s.promptId = selectPromptId req s.persona ∧
    s.promptConfig.overrideApplied = none ∧
    (∃ p rest, s.persona.prompts = p :: rest ∧ s.promptConfig.promptUsedId = p.id) ∧
    db1.committed = db0.committed ∧ db1.commits = db0.commits ∧
    db1.rollbacks = db0.rollbacks ∧
    (useEx = true → s.userMessage = none ∧
      db1.staged.map (fun m => (m.id, m.messageType, m.promptId)) =
        db0.staged.map (fun m => (m.id, m.messageType, m.promptId))) ∧
    (useEx = false → ∃ um, s.userMessage = some um ∧ um.messageType = .user ∧
      um.promptId = selectPromptId req s.persona ∧ um.id = env.newMessageId ∧
      s.finalMsg.id = um.id ∧
      db1.staged.map (fun m => (m.id, m.messageType, m.promptId)) =
        db0.staged.map (fun m => (m.id, m.messageType, m.promptId)) ++
          [(um.id, MessageType.user, um.promptId)]) := by
  unfold setup at h
  rcases hcs : env.chatSession with e | cs
  · rw [hcs] at h; simp at h
  rw [hcs] at h; dsimp only at h
  rcases hpr : (match req.alternateAssistantId with
      | some aid => env.personaById aid
      | none => .ok cs.persona) with e | persona
  · rw [hpr] at h; simp at h
  rw [hpr] at h; dsimp only at h
  by_cases hcfg : req.searchDocIds = none ∧ req.retrievalOptions = none
  · rw [if_pos hcfg] at h; simp at h
  rw [if_neg hcfg] at h
  rcases hll : env.getLlms with e | ⟨llm, fllm⟩
  · rw [hll] at h; cases e <;> simp at h
  rw [hll] at h; dsimp only at h
  rcases hin : env.infra with e | u
  · rw [hin] at h; simp at h
  rw [hin] at h; dsimp only at h
  rcases hrm : env.rootMessage with e | root
  · rw [hrm] at h; simp at h
  rw [hrm] at h; dsimp only at h
  rcases hpm : (match req.parentMessageId with
      | some pid => env.getChatMessage pid
      | none => Except.ok root) with e | parent
  · rw [hpm] at h; simp at h
  rw [hpm] at h; dsimp only at h
  cases useEx with
  | false =>
    rw [if_pos rfl] at h
    rcases htk : env.tokenize req.message with e | tc
    · rw [htk] at h; simp at h
    rw [htk] at h; dsimp only at h
    rcases hca : env.chainAfterInsert
        (mkUserMessage env req parent (selectPromptId req persona) tc) with e | ⟨fm, hist⟩
    · rw [hca] at h; simp at h
    rw [hca] at h; dsimp only at h
    by_cases hne : fm.id ≠ (mkUserMessage env req parent (selectPromptId req persona) tc).id
    · rw [if_pos hne] at h; simp at h
    rw [if_neg hne] at h
    push_neg at hne
    obtain ⟨hfm, hum, hper, hpid, hov, ⟨p, rest, hpp, hpc⟩, hcom, hcmt, hrb, hst⟩ :=
      setupRest_ok_proj h
    refine ⟨?_, hov, ⟨p, rest, ?_, hpc⟩, hcom, hcmt, hrb, ?_, ?_⟩
    · rw [hpid, hper]
    · rw [hper]; exact hpp
    · intro hcontra; exact absurd hcontra (by simp)
    · intro _
      refine ⟨mkUserMessage env req parent (selectPromptId req persona) tc,
        ?_, rfl, ?_, rfl, ?_, ?_⟩
      · rw [hum]
      · rw [hper]; rfl
      · rw [hfm]; exact hne
      · rw [hst]; simp [stageMsg, mkUserMessage]
  | true =>
    rw [if_neg (by decide)] at h
    rcases hce : env.chainExisting with e | ⟨fm, hist⟩
    · rw [hce] at h; simp at h
    rw [hce] at h; dsimp only at h
    by_cases hft : fm.messageType ≠ .user
    · rw [if_pos hft] at h; simp at h
    rw [if_neg hft] at h
    obtain ⟨hfm, hum, hper, hpid, hov, ⟨p, rest, hpp, hpc⟩, hcom, hcmt, hrb, hst⟩ :=
      setupRest_ok_proj h
    refine ⟨?_, hov, ⟨p, rest, ?_, hpc⟩, hcom, hcmt, hrb, ?_, ?_⟩
    · rw [hpid, hper]
    · rw [hper]; exact hpp
    · intro _; exact ⟨hum, hst⟩
    · intro hcontra; exact absurd hcontra (by simp)

/-- The persister either succeeds — committing exactly the staged rows plus
one new assistant row in a single commit and yielding the detail packet —
or fails, yielding exactly the `StreamingError("Failed to parse LLM
output")` packet and performing no rollback. -/
lemma persist_cases (env : Env) (s : SetupOut) (st : LoopState) (db : DbState) :
    (∃ am mid, persist env s st db =
        ([.messageDetail mid], commitDb (stageMsg db am), .success) ∧
      am.messageType = .assistant ∧ am.parentId = some s.finalMsg.id ∧
      am.promptId = s.promptId) ∨
    (∃ e db', persist env s st db =
        ([.streamingError "Failed to parse LLM output"], db', .failedPersist e) ∧
      (db' = db ∨ ∃ am, db' = commitDb (stageMsg db am) ∧ am.messageType = .assistant ∧
        am.parentId = some s.finalMsg.id)) := by
  unfold persist
  dsimp only
  repeat' split
  all_goals
    first
    | exact Or.inl ⟨_, _, rfl, rfl, rfl, rfl⟩
    | exact Or.inr ⟨_, _, rfl, Or.inl rfl⟩
    | exact Or.inr ⟨_, _, rfl, Or.inr ⟨_, rfl, rfl, rfl⟩⟩

/-- The event loop never yields a final-message-detail packet. -/
lemma genLoop_no_detail (env : Env) (s : SetupOut) :
    ∀ (evs : List AnswerEvent) (st : LoopState) (mid : Nat),
      ChatPacket.messageDetail mid ∉ (genLoop env s evs st).1 := by
  intro evs
  induction evs with
  | nil => intro st mid hmem; simp [genLoop] at hmem
  | cons ev evs ih =>
    intro st mid hmem
    rw [genLoop] at hmem
    rcases hse : stepEvent env s st ev with e | ⟨st', ps⟩
    · rw [hse] at hmem; simp at hmem
    rw [hse] at hmem
    dsimp only at hmem
    rw [List.mem_append] at hmem
    rcases hmem with hmem | hmem
    · unfold stepEvent at hse
      cases ev <;> (try dsimp only at hse)
      all_goals repeat' split at hse
      all_goals
        first
        | (simp only [Except.ok.injEq, Prod.mk.injEq] at hse
           obtain ⟨-, rfl⟩ := hse
           simp at hmem)
        | simp at hse
    · exact ih st' mid hmem

/-- A packet list containing no relevance packet passes the ordering check
from any starting flag. -/
lemma RA_no_rel : ∀ (l : List ChatPacket), (∀ i, ChatPacket.relevance i ∉ l) →
    ∀ b, relevanceAfterDocs b l = true := by
  intro l
  induction l with
  | nil => intro _ b; rfl
  | cons p ps ih =>
    intro h b
    have hps : ∀ i, ChatPacket.relevance i ∉ ps := fun i hi => h i (List.mem_cons_of_mem _ hi)
    cases p
    case qaDocs => exact ih hps true
    case relevance i => exact absurd (List.mem_cons_self _ _) (h i)
    all_goals exact ih hps b

/-- The packets of the event loop, followed by any relevance-free tail,
pass the ordering check, provided the flag is already set whenever
reference documents have already been recorded. -/
lemma genLoop_RA (env : Env) (s : SetupOut) :
    ∀ (evs : List AnswerEvent) (st : LoopState) (b : Bool) (l' : List ChatPacket),
      (st.referenceDbSearchDocs.isSome → b = true) →
      (∀ i, ChatPacket.relevance i ∉ l') →
      relevanceAfterDocs b ((genLoop env s evs st).1 ++ l') = true := by
  intro evs
  induction evs with
  | nil =>
    intro st b l' _ hl'
    rw [genLoop]
    exact RA_no_rel l' hl' b
  | cons ev evs ih =>
    intro st b l' hb hl'
    rw [genLoop]
    rcases hse : stepEvent env s st ev with e | ⟨st', ps⟩
    · exact RA_no_rel l' hl' b
    dsimp only
    rw [List.append_assoc]
    unfold stepEvent at hse
    cases ev <;> dsimp only at hse
    case searchSummary rephrased docIds =>
      rcases hh : handleSearchSummary s.selectedDbSearchDocs s.dedupeFlag rephrased docIds
        with ⟨qa, refs, dropped⟩
      rw [hh] at hse
      simp only [Except.ok.injEq, Prod.mk.injEq] at hse
      obtain ⟨hst', rfl⟩ := hse
      subst hst'
      exact ih _ true l' (fun _ => rfl) hl'
    case sectionRelevance relevantDocIds =>
      rcases hrd : st.referenceDbSearchDocs with _ | refs <;> rw [hrd] at hse <;>
        simp only [Except.ok.injEq, Prod.mk.injEq] at hse <;> obtain ⟨hst', rfl⟩ := hse <;>
        subst hst'
      · exact ih st b l' hb hl'
      · have hbtrue : b = true := hb (by rw [hrd]; rfl)
        subst hbtrue
        show (true && relevanceAfterDocs true ((genLoop env s evs st).1 ++ l')) = true
        rw [Bool.true_and]
        exact ih st true l' (fun _ => rfl) hl'
    case imageGeneration urls =>
      rcases hsf : env.saveFilesFromUrls urls with e | fids <;> rw [hsf] at hse
      · simp at hse
      simp only [Except.ok.injEq, Prod.mk.injEq] at hse
      obtain ⟨hst', rfl⟩ := hse
      subst hst'
      exact ih _ b l' hb hl'
    case internetSearch docIds =>
      rcases hh : handleInternetSummary docIds with ⟨qa, refs⟩
      rw [hh] at hse
      simp only [Except.ok.injEq, Prod.mk.injEq] at hse
      obtain ⟨hst', rfl⟩ := hse
      subst hst'
      exact ih _ true l' (fun _ => rfl) hl'
    case customTool name result =>
      simp only [Except.ok.injEq, Prod.mk.injEq] at hse
      obtain ⟨hst', rfl⟩ := hse
      subst hst'
      exact ih st b l' hb hl'
    case answerPiece p =>
      simp only [Except.ok.injEq, Prod.mk.injEq] at hse
      obtain ⟨hst', rfl⟩ := hse
      subst hst'
      exact ih st b l' hb hl'
    case citation c =>
      simp only [Except.ok.injEq, Prod.mk.injEq] at hse
      obtain ⟨hst', rfl⟩ := hse
      subst hst'
      exact ih st b l' hb hl'
    case toolCallFinal name args result =>
      simp only [Except.ok.injEq, Prod.mk.injEq] at hse
      obtain ⟨hst', rfl⟩ := hse
      subst hst'
      exact ih _ b l' hb hl'
    case failure e => simp at hse

/-! ## C6 amended theorem -/

/-- C6 (amended): in every turn's packet stream, a relevance-filter packet
only appears after some document-list packet has already been emitted —
from the internal search summary or the internet search (the code records
reference documents for both, so internet results do participate in
relevance filtering, unlike the claim's second half). -/
theorem C6_relevance_only_after_docs (env : Env) (req : Req) (dnc : Nat) (mdp : Rat)
    (useEx : Bool) (db0 : DbState) :
    relevanceAfterDocs false
      (stream_chat_message_objects env req dnc mdp useEx db0).packets = true := by
  unfold stream_chat_message_objects
  rcases hsu : setup env req dnc mdp useEx db0 with ⟨res, lo, db1⟩
  cases res with
  | error e =>
    dsimp only
    rcases hcl : classifyError lo e with e2 | m <;> dsimp only
    · rfl
    · rfl
  | ok s =>
    dsimp only
    rcases hloop : genLoop env s env.events {} with ⟨ps, r⟩
    cases r with
    | error e =>
      dsimp only
      rcases hcl : classifyError lo e with e2 | m <;> dsimp only
      · have := genLoop_RA env s env.events {} false [] (by simp) (by simp)
        rw [hloop] at this
        simpa using this
      · have := genLoop_RA env s env.events {} false [.streamingError m]
          (by simp) (by intro i hi; simp at hi)
        rw [hloop] at this
        simpa using this
    | ok st =>
      dsimp only
      rcases persist_cases env s st db1 with ⟨am, mid, hp, -, -, -⟩ | ⟨e, db', hp, -⟩ <;>
        rw [hp] <;> dsimp only
      · have := genLoop_RA env s env.events {} false [.messageDetail mid]
          (by simp) (by intro i hi; simp at hi)
        rw [hloop] at this
        simpa using this
      · have := genLoop_RA env s env.events {} false
          [.streamingError "Failed to parse LLM output"]
          (by simp) (by intro i hi; simp at hi)
        rw [hloop] at this
        simpa using this

/-- With no provisional user message the rest of setup never touches the
session state. -/
lemma setupRest_none_db (env : Env) (req : Req) (dnc : Nat) (mdp : Rat)
    (cs : ChatSession) (persona : Persona) (pid : Option Nat) (llm fllm : LLMConfig)
    (fm : Message) (hist : List Message) (db : DbState) :
    (setupRest env req dnc mdp cs persona pid llm fllm none fm hist db).2.2 = db := by
  unfold setupRest
  dsimp only
  repeat' split
  all_goals rfl

/-- A regeneration-mode setup never touches the session state. -/
lemma setup_true_db (env : Env) (req : Req) (dnc : Nat) (mdp : Rat) (db0 : DbState) :
    (setup env req dnc mdp true db0).2.2 = db0 := by
  unfold setup
  repeat' split
  all_goals first
    | rfl
    | apply setupRest_none_db
    | (exfalso; simp_all)

/-- The persister never changes the number of user-type rows in the
session. -/
lemma persist_countUser (env : Env) (s : SetupOut) (st : LoopState) (db : DbState) :
    countUser ((persist env s st db).2.1.committed ++ (persist env s st db).2.1.staged) =
      countUser (db.committed ++ db.staged) := by
  rcases persist_cases env s st db with ⟨am, mid, hp, ham, -, -⟩ | ⟨e, db', hp, hdb'⟩
  · rw [hp]
    simp [commitDb, stageMsg, countUser, List.filter_append, ham]
  · rw [hp]
    rcases hdb' with rfl | ⟨am, rfl, ham, -⟩
    · rfl
    · simp [commitDb, stageMsg, countUser, List.filter_append, ham]

/-! ## C2 amended theorem -/

/-- C2 (amended): every turn that inserts a new user message
(`use_existing_user_message = false`) and completes without raising commits
exactly one new user row and one new assistant row together, through a
single commit call, with the assistant's parent equal to the user
message. -/
theorem C2_success_commits_pair (env : Env) (req : Req) (dnc : Nat) (mdp : Rat)
    (db0 : DbState) (hdb : db0.staged = [])
    (h : (stream_chat_message_objects env req dnc mdp false db0).outcome = .success) :
    ∃ um am,
      (stream_chat_message_objects env req dnc mdp false db0).db.committed =
        db0.committed ++ [um, am] ∧
      um.messageType = .user ∧ am.messageType = .assistant ∧
      am.parentId = some um.id ∧
      (stream_chat_message_objects env req dnc mdp false db0).db.staged = [] ∧
      (stream_chat_message_objects env req dnc mdp false db0).db.commits = db0.commits + 1 := by
  unfold stream_chat_message_objects at h ⊢
  rcases hsu : setup env req dnc mdp false db0 with ⟨res, lo, db1⟩
  rw [hsu] at h
  cases res with
  | error e =>
    dsimp only at h
    rcases hcl : classifyError lo e with e2 | m <;> rw [hcl] at h <;> simp at h
  | ok s =>
    dsimp only at h ⊢
    rcases hloop : genLoop env s env.events {} with ⟨ps, r⟩
    rw [hloop] at h
    cases r with
    | error e =>
      dsimp only at h
      rcases hcl : classifyError lo e with e2 | m <;> rw [hcl] at h <;> simp at h
    | ok st =>
      dsimp only at h ⊢
      rcases persist_cases env s st db1 with ⟨am, mid, hp, ham, hpar, hpid⟩ | ⟨e, db', hp, -⟩
      · rw [hp]
        dsimp only
        obtain ⟨-, -, -, hcom, hcmt, -, -, hfalse⟩ := setup_ok_shape hsu
        obtain ⟨um0, -, -, -, -, hfmid, hstmap⟩ := hfalse rfl
        rw [hdb] at hstmap
        simp only [List.map_nil, List.nil_append] at hstmap
        rcases hstg : db1.staged with _ | ⟨um1, rest1⟩
        · rw [hstg] at hstmap; simp at hstmap
        rw [hstg] at hstmap
        simp only [List.map_cons, List.cons.injEq, Prod.mk.injEq] at hstmap
        obtain ⟨⟨hid, hty, -⟩, hrest⟩ := hstmap
        have hrest1 : rest1 = [] := by
          rcases rest1 with _ | ⟨x, xs⟩
          · rfl
          · simp at hrest
        subst hrest1
        refine ⟨um1, am, ?_, hty, ham, ?_, rfl, ?_⟩
        · show (commitDb (stageMsg db1 am)).committed = db0.committed ++ [um1, am]
          simp [commitDb, stageMsg, hcom, hstg]
        · rw [hpar, hfmid, ← hid]
        · show (commitDb (stageMsg db1 am)).commits = db0.commits + 1
          simp [commitDb, stageMsg, hcmt]
      · rw [hp] at h
        simp at h

/-! ## C3 -/

/-- C3: when the freshly inserted user message is not the leaf of the
re-resolved mainline chain, the turn fails with the chain-integrity error,
the provisional insert is rolled back, and no durable state change remains
(committed rows and commit count unchanged, staged rows discarded); the
stream consists of the single `StreamingError` packet the classifier
produces for it. -/
theorem C3_chain_integrity_rolls_back (env : Env) (req : Req) (dnc : Nat) (mdp : Rat)
    (db0 : DbState) (cs : ChatSession) (persona : Persona) (llm fllm : LLMConfig)
    (root parent : Message) (tc : Nat) (fm : Message) (hist : List Message)
    (hcs : env.chatSession = .ok cs)
    (hpr : (match req.alternateAssistantId with
            | some aid => env.personaById aid
            | none => Except.ok cs.persona) = .ok persona)
    (hcfg : ¬(req.searchDocIds = none ∧ req.retrievalOptions = none))
    (hll : env.getLlms = .ok (llm, fllm))
    (hin : env.infra = .ok ())
    (hrm : env.rootMessage = .ok root)
    (hpm : (match req.parentMessageId with
            | some pid => env.getChatMessage pid
            | none => Except.ok root) = .ok parent)
    (htk : env.tokenize req.message = .ok tc)
    (hca : env.chainAfterInsert
      (mkUserMessage env req parent (selectPromptId req persona) tc) = .ok (fm, hist))
    (hne : fm.id ≠ env.newMessageId) :
    (stream_chat_message_objects env req dnc mdp false db0).outcome =
      .failedTurn .chainIntegrity ∧
    (stream_chat_message_objects env req dnc mdp false db0).db.committed = db0.committed ∧
    (stream_chat_message_objects env req dnc mdp false db0).db.staged = [] ∧
    (stream_chat_message_objects env req dnc mdp false db0).db.commits = db0.commits ∧
    ∃ m, (stream_chat_message_objects env req dnc mdp false db0).packets =
      [.streamingError m] := by
  have hset : setup env req dnc mdp false db0 =
      (.error .chainIntegrity, some llm,
        rollbackDb (stageMsg db0 (mkUserMessage env req parent (selectPromptId req persona) tc))) := by
    unfold setup
    rw [hcs]; dsimp only
    rw [hpr]; dsimp only
    rw [if_neg hcfg]
    rw [hll]; dsimp only
    rw [hin]; dsimp only
    rw [hrm]; dsimp only
    rw [hpm]; dsimp only
    rw [if_pos rfl]
    rw [htk]; dsimp only
    rw [hca]; dsimp only
    have hne' : fm.id ≠ (mkUserMessage env req parent (selectPromptId req persona) tc).id := hne
    rw [if_pos hne']
  unfold stream_chat_message_objects
  rw [hset]
  dsimp only
  obtain ⟨m, hm⟩ := classifyError_some_ok llm .chainIntegrity
  rw [hm]
  dsimp only
  refine ⟨rfl, ?_, rfl, rfl, m, rfl⟩
  simp [rollbackDb, stageMsg]

/-! ## C4 amended theorem -/

/-- C4 (amended): when generation completes but the persistence phase
raises, the turn emits `StreamingError("Failed to parse LLM output")` as
the last packet, emits no final-message-detail packet, and performs no
rollback. -/
theorem C4_persist_failure_behavior (env : Env) (req : Req) (dnc : Nat) (mdp : Rat)
    (useEx : Bool) (db0 : DbState) (e : ExKind)
    (h : (stream_chat_message_objects env req dnc mdp useEx db0).outcome = .failedPersist e) :
    (∃ ps, (stream_chat_message_objects env req dnc mdp useEx db0).packets =
      ps ++ [.streamingError "Failed to parse LLM output"]) ∧
    (∀ mid, ChatPacket.messageDetail mid ∉
      (stream_chat_message_objects env req dnc mdp useEx db0).packets) ∧
    (stream_chat_message_objects env req dnc mdp useEx db0).db.rollbacks = db0.rollbacks := by
  unfold stream_chat_message_objects at h ⊢
  rcases hsu : setup env req dnc mdp useEx db0 with ⟨res, lo, db1⟩
  rw [hsu] at h
  cases res with
  | error e0 =>
    dsimp only at h
    rcases hcl : classifyError lo e0 with e2 | m <;> rw [hcl] at h <;> simp at h
  | ok s =>
    dsimp only at h ⊢
    rcases hloop : genLoop env s env.events {} with ⟨ps, r⟩
    rw [hloop] at h
    cases r with
    | error e0 =>
      dsimp only at h
      rcases hcl : classifyError lo e0 with e2 | m <;> rw [hcl] at h <;> simp at h
    | ok st =>
      dsimp only at h ⊢
      obtain ⟨-, -, -, -, -, hrb, -, -⟩ := setup_ok_shape hsu
      rcases persist_cases env s st db1 with ⟨am, mid, hp, -, -, -⟩ | ⟨e0, db', hp, hdb'⟩
      · rw [hp] at h
        simp at h
      · rw [hp] at h ⊢
        dsimp only at h ⊢
        refine ⟨⟨ps, rfl⟩, ?_, ?_⟩
        · intro mid hmem
          rw [List.mem_append] at hmem
          rcases hmem with hmem | hmem
          · have hnd := genLoop_no_detail env s env.events {} mid
            rw [hloop] at hnd
            exact hnd hmem
          · simp at hmem
        · rcases hdb' with rfl | ⟨am, rfl, -, -⟩
          · exact hrb
          · show (commitDb (stageMsg db1 am)).rollbacks = db0.rollbacks
            simpa [commitDb, stageMsg] using hrb

/-! ## C9 -/

/-- C9: with `use_existing_user_message = true` no new user message is ever
created (the number of user-type rows in the session is unchanged on every
path), and when the resolved mainline leaf is not of type USER the turn
fails with the invalid-regeneration-state error, surfaced as a single
`StreamingError` packet. -/
theorem C9_regeneration_no_new_user (env : Env) (req : Req) (dnc : Nat) (mdp : Rat)
    (db0 : DbState) (hdb : db0.staged = []) :
    (countUser ((stream_chat_message_objects env req dnc mdp true db0).db.committed ++
        (stream_chat_message_objects env req dnc mdp true db0).db.staged) =
      countUser db0.committed) ∧
    (∀ (cs : ChatSession) (persona : Persona) (llm fllm : LLMConfig)
        (root parent fm : Message) (hist : List Message),
      env.chatSession = .ok cs →
      (match req.alternateAssistantId with
       | some aid => env.personaById aid
       | none => Except.ok cs.persona) = .ok persona →
      ¬(req.searchDocIds = none ∧ req.retrievalOptions = none) →
      env.getLlms = .ok (llm, fllm) →
      env.infra = .ok () →
      env.rootMessage = .ok root →
      (match req.parentMessageId with
       | some pid => env.getChatMessage pid
       | none => Except.ok root) = .ok parent →
      env.chainExisting = .ok (fm, hist) →
      fm.messageType ≠ .user →
      (stream_chat_message_objects env req dnc mdp true db0).outcome =
        .failedTurn .invalidRegenState ∧
      ∃ m, (stream_chat_message_objects env req dnc mdp true db0).packets =
        [.streamingError m]) := by
  constructor
  · unfold stream_chat_message_objects
    rcases hsu : setup env req dnc mdp true db0 with ⟨res, lo, db1⟩
    have hdb1 : db1 = db0 := by
      have h0 := setup_true_db env req dnc mdp db0
      rw [hsu] at h0
      exact h0
    subst hdb1
    cases res with
    | error e =>
      dsimp only
      rcases hcl : classifyError lo e with e2 | m <;> dsimp only
      · rw [hdb]; simp
      · simp [rollbackDb, hdb]
    | ok s =>
      dsimp only
      rcases hloop : genLoop env s env.events {} with ⟨ps, r⟩
      cases r with
      | error e =>
        dsimp only
        rcases hcl : classifyError lo e with e2 | m <;> dsimp only
        · rw [hdb]; simp
        · simp [rollbackDb, hdb]
      | ok st =>
        dsimp only
        have hc := persist_countUser env s st db1
        rcases hper : persist env s st db1 with ⟨pps, db2, oc⟩
        rw [hper] at hc
        dsimp only at hc ⊢
        rw [hc, hdb]
        simp
  · intro cs persona llm fllm root parent fm hist hcs hpr hcfg hll hin hrm hpm hce hft
    have hset : setup env req dnc mdp true db0 =
        (.error .invalidRegenState, some llm, db0) := by
      unfold setup
      rw [hcs]; dsimp only
      rw [hpr]; dsimp only
      rw [if_neg hcfg]
      rw [hll]; dsimp only
      rw [hin]; dsimp only
      rw [hrm]; dsimp only
      rw [hpm]; dsimp only
      rw [if_neg (by decide)]
      rw [hce]; dsimp only
      rw [if_pos hft]
    unfold stream_chat_message_objects
    rw [hset]
    dsimp only
    obtain ⟨m, hm⟩ := classifyError_some_ok llm .invalidRegenState
    rw [hm]
    dsimp only
    exact ⟨rfl, m, rfl⟩

/-! ## C5 -/

/-- C5: exactly one pruning mode is active per request — manual mode
(manual flag set, no chunk budget, manually selected docs recorded so the
citation config marks all documents useful) exactly when the caller
supplied a non-empty reference document id set; budget mode otherwise,
with `max_chunks = persona.num_chunks` when set else the default,
`max_window_percentage` the configured target, and `use_sections` iff
`chunks_above > 0` or `chunks_below > 0`. -/
theorem C5_pruning_modes (env : Env) (req : Req) (persona : Persona)
    (dnc : Nat) (mdp : Rat) (pc : DocumentPruningConfig) (sel ss : Option (List Nat))
    (h : buildPruningAndSelection env req persona dnc mdp = .ok (pc, sel, ss)) :
    pc.isManuallySelectedDocs = refIdsTruthy req ∧
    sel.isSome = refIdsTruthy req ∧
    (refIdsTruthy req = true →
      pc = { isManuallySelectedDocs := true } ∧
      sel = some ((req.searchDocIds.getD []).filterMap env.getDbSearchDoc)) ∧
    (refIdsTruthy req = false →
      pc = { maxChunks := some (persona.numChunks.getD dnc),
             maxWindowPercentage := some mdp,
             useSections := decide (req.chunksAbove > 0) || decide (req.chunksBelow > 0) } ∧
      sel = none) := by
  unfold buildPruningAndSelection at h
  by_cases ht : refIdsTruthy req = true
  · rw [if_pos ht] at h
    dsimp only at h
    rcases hdi : env.docIdentifiers (req.searchDocIds.getD []) with e | ids
    · rw [hdi] at h; simp at h
    rw [hdi] at h
    dsimp only at h
    rcases hsi : env.inferenceSections ids with e | secs
    · rw [hsi] at h; simp at h
    rw [hsi] at h
    simp only [Except.ok.injEq, Prod.mk.injEq] at h
    obtain ⟨hpc, hsel, -⟩ := h
    subst hpc
    subst hsel
    simp [ht]
  · rw [if_neg ht] at h
    simp only [Except.ok.injEq, Prod.mk.injEq] at h
    obtain ⟨hpc, hsel, -⟩ := h
    subst hpc
    subst hsel
    simp only [Bool.not_eq_true] at ht
    simp [ht]

/-! ## C7 -/

/-- C7: the image-generation credential is resolved in priority order —
the turn's primary LLM config when it has a (non-empty) api key and its
provider is "openai"; otherwise the first configured "openai" provider
when it has an api key; otherwise the missing-credential error. -/
theorem C7_image_credential_priority (llm : LLMConfig) (providers : List LLMProvider) :
    ((optStrTruthy llm.apiKey && (llm.modelProvider == "openai")) = true →
      resolveImageGenCfg llm providers =
        .ok { apiKey := llm.apiKey.getD "", apiBase := llm.apiBase,
              apiVersion := llm.apiVersion }) ∧
    ((optStrTruthy llm.apiKey && (llm.modelProvider == "openai")) = false →
      ∀ p, (providers.filter (fun q => q.provider == "openai")).head? = some p →
        optStrTruthy p.apiKey = true →
        resolveImageGenCfg llm providers =
          .ok { apiKey := p.apiKey.getD "", apiBase := p.apiBase,
                apiVersion := p.apiVersion }) ∧
    ((optStrTruthy llm.apiKey && (llm.modelProvider == "openai")) = false →
      ((providers.filter (fun q => q.provider == "openai")).head? = none ∨
        (∃ p, (providers.filter (fun q => q.provider == "openai")).head? = some p ∧
          optStrTruthy p.apiKey = false)) →
      resolveImageGenCfg llm providers =
        .error (.missingCredential "Image generation tool requires an OpenAI API key")) := by
  refine ⟨?_, ?_, ?_⟩
  · intro hcond
    unfold resolveImageGenCfg
    rw [if_pos hcond]
  · intro hcond p hp hkey
    unfold resolveImageGenCfg
    rw [if_neg (by rw [hcond]; simp)]
    rw [hp]
    dsimp only
    rw [if_pos hkey]
  · intro hcond hfail
    unfold resolveImageGenCfg
    rw [if_neg (by rw [hcond]; simp)]
    rcases hfail with hnone | ⟨p, hp, hkey⟩
    · rw [hnone]
    · rw [hp]
      dsimp only
      rw [if_neg (by rw [hkey]; simp)]

/-! ## C8 amended theorem -/

/-- C8 (amended): with both the reference document ids and the retrieval
options absent, the turn fails before any packet is emitted and with no
durable state change, but the exception that escapes is the error
handler's unbound-local error (chaining the configuration error), not the
configuration error itself. -/
theorem C8_config_failure_before_any_packet (env : Env) (req : Req) (dnc : Nat)
    (mdp : Rat) (useEx : Bool) (db0 : DbState) (cs : ChatSession) (persona : Persona)
    (hcs : env.chatSession = .ok cs)
    (hpr : (match req.alternateAssistantId with
            | some aid => env.personaById aid
            | none => Except.ok cs.persona) = .ok persona)
    (hdocs : req.searchDocIds = none) (hro : req.retrievalOptions = none) :
    (stream_chat_message_objects env req dnc mdp useEx db0).packets = [] ∧
    (stream_chat_message_objects env req dnc mdp useEx db0).db = db0 ∧
    (stream_chat_message_objects env req dnc mdp useEx db0).outcome =
      .raised (.unboundLocal (.configError
        "Must specify a set of documents for chat or specify search options")) := by
  have hset : setup env req dnc mdp useEx db0 =
      (.error (.configError "Must specify a set of documents for chat or specify search options"),
        none, db0) := by
    unfold setup
    rw [hcs]; dsimp only
    rw [hpr]; dsimp only
    rw [if_pos ⟨hdocs, hro⟩]
  unfold stream_chat_message_objects
  rw [hset]
  dsimp only
  have hcl : classifyError none
      (.configError "Must specify a set of documents for chat or specify search options") =
      .error (.unboundLocal (.configError
        "Must specify a set of documents for chat or specify search options")) := by
    rfl
  rw [hcl]
  exact ⟨rfl, rfl, rfl⟩

/-! ## C10 amended theorem -/

/-- C10 (amended): whenever setup completes, the prompt configuration used
for answering is built from the persona's first prompt with no prompt
override applied, while the prompt id attached to the stored messages is
the caller's `prompt_id` when supplied, else the persona prompt with the
highest id. -/
theorem C10_prompt_selection (env : Env) (req : Req) (dnc : Nat) (mdp : Rat)
    (useEx : Bool) (db0 : DbState) (s : SetupOut) (lo : Option LLMConfig) (db1 : DbState)
    (h : setup env req dnc mdp useEx db0 = (.ok s, lo, db1)) :
    s.promptConfig.overrideApplied = none ∧
    (∃ p rest, s.persona.prompts = p :: rest ∧ s.promptConfig.promptUsedId = p.id) ∧
    s.promptId = selectPromptId req s.persona ∧
    (∀ um, s.userMessage = some um → um.promptId = selectPromptId req s.persona) := by
  obtain ⟨h1, h2, h3, -, -, -, htrue, hfalse⟩ := setup_ok_shape h
  refine ⟨h2, h3, h1, ?_⟩
  intro um hum
  cases useEx with
  | true =>
    obtain ⟨hnone, -⟩ := htrue rfl
    rw [hnone] at hum
    exact absurd hum (by simp)
  | false =>
    obtain ⟨um0, hum0, -, hpid0, -, -, -⟩ := hfalse rfl
    rw [hum0] at hum
    obtain rfl : um0 = um := by injection hum
    exact hpid0

/-! ## Further concrete fixtures for the witnesses -/

/-- Request in manual document mode. -/
def reqManual : Req := { message := "hi", searchDocIds := some [4, 7] }

/-- An LLM config that does not qualify as the image credential. -/
def llmNoKey : LLMConfig := { modelProvider := "azure" }

/-- A configured openai provider with an api key. -/
def provOpenAI : LLMProvider := { provider := "openai", apiKey := some "sk-test" }

/-- The user message `envMain`/`reqPromptOne` stages. -/
def userMsgMain : Message :=
  { id := 1000, parentId := some 0, messageType := .user, promptId := some 1,
    prompt := some 1, text := "hi", tokenCount := 2 }

/-- The setup output of `envMain` with `reqPromptOne`. -/
def setupOutMain : SetupOut :=
  { chatSessionId := 3
    persona := personaMain
    promptId := some 1
    llm := llmMain
    fastLlm := llmMain
    userMessage := some userMsgMain
    finalMsg := userMsgMain
    historyMsgs := []
    latestQueryFiles := []
    selectedDbSearchDocs := none
    pruning := { maxChunks := some 10, maxWindowPercentage := some 1 }
    promptConfig := { promptUsedId := 1 }
    tools := []
    dedupeFlag := false
    alternateAssistantId := none
    citationAllDocsUseful := false }

/-! ## Witnesses -/

/-- Witness for C2's theorem at a concrete successful turn. -/
theorem C2_success_commits_pair_witness :
    ∃ um am,
      (stream_chat_message_objects envMain reqMain 10 1 false {}).db.committed =
        ({} : DbState).committed ++ [um, am] ∧
      um.messageType = .user ∧ am.messageType = .assistant ∧
      am.parentId = some um.id ∧
      (stream_chat_message_objects envMain reqMain 10 1 false {}).db.staged = [] ∧
      (stream_chat_message_objects envMain reqMain 10 1 false {}).db.commits =
        ({} : DbState).commits + 1 :=
  C2_success_commits_pair envMain reqMain 10 1 {} rfl (by decide)

/-- Witness for C3's theorem at a concrete concurrent-branch scenario. -/
theorem C3_chain_integrity_rolls_back_witness :
    (stream_chat_message_objects envChainBad reqMain 10 1 false {}).outcome =
      .failedTurn .chainIntegrity :=
  (C3_chain_integrity_rolls_back envChainBad reqMain 10 1 {} sessionMain personaMain
    llmMain llmMain rootMsgMain rootMsgMain 2
    { id := 51, messageType := .assistant, prompt := some 2 } []
    rfl rfl (by decide) rfl rfl rfl rfl rfl rfl (by decide)).1

/-- Witness for C4's theorem at a concrete persistence failure. -/
theorem C4_persist_failure_behavior_witness :
    (stream_chat_message_objects envPersistFail reqMain 10 1 false {}).db.rollbacks =
      ({} : DbState).rollbacks :=
  (C4_persist_failure_behavior envPersistFail reqMain 10 1 false {}
    (.externalFailure "boom") (by decide)).2.2

/-- Witness for C5's theorem in concrete manual mode. -/
theorem C5_pruning_modes_witness :
    ({ isManuallySelectedDocs := true } : DocumentPruningConfig).isManuallySelectedDocs =
      refIdsTruthy reqManual ∧
    (some [4, 7] : Option (List Nat)).isSome = refIdsTruthy reqManual :=
  ⟨(C5_pruning_modes envMain reqManual personaMain 10 1
      { isManuallySelectedDocs := true } (some [4, 7]) (some [4, 7]) rfl).1,
   (C5_pruning_modes envMain reqManual personaMain 10 1
      { isManuallySelectedDocs := true } (some [4, 7]) (some [4, 7]) rfl).2.1⟩

/-- Witness for C7's theorem at a concrete fallback-provider credential. -/
theorem C7_image_credential_priority_witness :
    resolveImageGenCfg llmNoKey [provOpenAI] =
      .ok { apiKey := provOpenAI.apiKey.getD "", apiBase := provOpenAI.apiBase,
            apiVersion := provOpenAI.apiVersion } :=
  (C7_image_credential_priority llmNoKey [provOpenAI]).2.1 (by decide) provOpenAI rfl
    (by decide)

/-- Witness for C8's theorem at the concrete misconfigured request. -/
theorem C8_config_failure_before_any_packet_witness :
    (stream_chat_message_objects envMain reqNoDocsNoRetrieval 10 1 false {}).db =
      ({} : DbState) :=
  (C8_config_failure_before_any_packet envMain reqNoDocsNoRetrieval 10 1 false {}
    sessionMain personaMain rfl rfl rfl rfl).2.1

/-- Witness for C9's theorem at the concrete invalid-regeneration scenario. -/
theorem C9_regeneration_no_new_user_witness :
    (stream_chat_message_objects envRegenBad reqMain 10 1 true {}).outcome =
      .failedTurn .invalidRegenState :=
  ((C9_regeneration_no_new_user envRegenBad reqMain 10 1 {} rfl).2 sessionMain personaMain
    llmMain llmMain rootMsgMain rootMsgMain
    { id := 51, messageType := .assistant, prompt := some 2 } []
    rfl rfl (by decide) rfl rfl rfl rfl rfl (by decide)).1

/-- Witness for C10's theorem at the concrete pinned-prompt request. -/
theorem C10_prompt_selection_witness :
    setupOutMain.promptConfig.overrideApplied = none ∧
    setupOutMain.promptId = selectPromptId reqPromptOne setupOutMain.persona :=
  ⟨(C10_prompt_selection envMain reqPromptOne 10 1 false {} setupOutMain (some llmMain)
      (stageMsg {} userMsgMain) rfl).1,
   (C10_prompt_selection envMain reqPromptOne 10 1 false {} setupOutMain (some llmMain)
      (stageMsg {} userMsgMain) rfl).2.2.1⟩

end ChatOrch
